import Mathlib

/-!
Shallow embedding of the Netatmo custom integration core
(`custom_components/netatmo_custom/api.py`, `coordinator.py`, `webhook.py`).

Timestamps and intervals are modelled as rationals (the Python floats that
occur here — window arithmetic on `time.time()` values supplied as parameters,
and the backoff constants 1.5, 0.5 — are exact in the reachable computations).
Each `time.time()` reading is drawn from an explicit clock `Nat → ℚ`.
HTTP traffic is scripted: attempt `i` of the retry loop observes
`script i : TokenOutcome × AttemptOutcome`.
-/

set_option maxRecDepth 10000

set_option maxHeartbeats 1000000

namespace Netatmo

/-! ## Constants (api.py lines 22-33, coordinator.py lines 15-18, const.py) -/

def MAX_RETRIES : Nat := 3

def INITIAL_BACKOFF : ℚ := 2

def MAX_BACKOFF : ℚ := 30

def RATE_LIMIT_WINDOW : ℚ := 10

def RATE_LIMIT_MAX_REQUESTS : Nat := 40

def TRANSIENT_ERROR_CODES : List String := ["9", "10", "13", "26"]

def UPDATE_INTERVAL : ℚ := 60

def MIN_UPDATE_INTERVAL : ℚ := 30

def MAX_UPDATE_INTERVAL : ℚ := 300

def FAILURE_BACKOFF_MULTIPLIER : ℚ := 3 / 2

/-! ## Python helpers -/

/-- Model of `a or b` for Python strings read from an `Option`-valued lookup:
`None` and the empty string are falsy and select the fallback. -/
def pyOrStr (a : Option String) (d : String) : String :=
  match a with
  | some s => if s = "" then d else s
  | none => d

/-- Model of `resp_headers.get("Retry-After") or resp_headers.get("retry-after") or "60"`
(api.py line 172), given the values the two dict lookups return. -/
def retryAfterLookup (hU hL : Option String) : String :=
  pyOrStr hU (pyOrStr hL "60")

/-- Python `digitpart` grammar after the leading digit:
`digit (["_"] digit)*` — a single underscore may separate digits. -/
def digitpartRest : List Char → Bool
  | [] => true
  | '_' :: c :: cs => c.isDigit && digitpartRest cs
  | '_' :: [] => false
  | c :: cs => c.isDigit && digitpartRest cs

/-- Python decimal digit run: nonempty, starts with a digit, single
underscores allowed between digits. -/
def digitpart (l : List Char) : Bool :=
  match l with
  | [] => false
  | c :: cs => c.isDigit && digitpartRest cs

/-- Numeric value of a digit run, skipping underscores. -/
def digitsVal (l : List Char) : Nat :=
  l.foldl (fun acc c => if c = '_' then acc else acc * 10 + (c.toNat - 48)) 0

/-- Strip leading and trailing whitespace from a character list. -/
def pyStrip (l : List Char) : List Char :=
  (((l.dropWhile Char.isWhitespace).reverse.dropWhile Char.isWhitespace).reverse)

/-- Model of Python `int(s)` on an ASCII string: strip surrounding
whitespace, accept one optional sign then a decimal digit run; `none`
models the `ValueError` raise. -/
def pyInt (s : String) : Option Int :=
  match pyStrip s.data with
  | '-' :: rest => if digitpart rest then some (-(digitsVal rest : Int)) else none
  | '+' :: rest => if digitpart rest then some ((digitsVal rest : Int)) else none
  | l => if digitpart l then some ((digitsVal l : Int)) else none

/-! ## Rate limiter (`NetatmoAPI._check_rate_limit`, api.py lines 74-90) -/

/-- One call of the rate-limit check.  `now` is the `time.time()` read at
entry, `now2` the `time.time()` read when the new timestamp is appended
(after any sleep).  Returns the new timestamp list and the sleep duration
performed, if any. -/
def check_rate_limit (ts : List ℚ) (now now2 : ℚ) : List ℚ × Option ℚ :=
  let pruned := ts.filter (fun t => now - t < RATE_LIMIT_WINDOW)
  let sleep? : Option ℚ :=
    if RATE_LIMIT_MAX_REQUESTS ≤ pruned.length then
      let wait := RATE_LIMIT_WINDOW - (now - pruned.headD 0) + 1 / 2
      if 0 < wait then some wait else none
    else none
  (pruned ++ [now2], sleep?)

/-- Run a sequence of rate-limit checks, threading the timestamp list and
collecting each call's sleep (if any). -/
def runRateCalls : List (ℚ × ℚ) → List ℚ → List ℚ × List (Option ℚ)
  | [], ts => (ts, [])
  | (now, now2) :: rest, ts =>
    let r := check_rate_limit ts now now2
    let out := runRateCalls rest r.1
    (out.1, r.2 :: out.2)

/-! ## Request/response model for `async_request` -/

/-- The JSON envelope the client inspects after `json.loads`:
`result.get("status")`, `str` of `result["error"]["code"]` when present,
`result["error"]["message"]` when present, and the rest of the payload
kept opaque. -/
structure ParsedJson where
  status : Option String
  errorCode : Option String
  errorMessage : Option String
  payload : String
deriving DecidableEq, Repr

/-- Outcome of `async_get_access_token` on one attempt. -/
inductive TokenOutcome
  | tok (s : String)
  | tokenFail (msg : String)
deriving DecidableEq, Repr

/-- Outcome of `_do_request` on one attempt: a transport-level
`asyncio.TimeoutError`, an `aiohttp.ClientError`, or an HTTP response with
its status, the values of the two `Retry-After` header lookups, the raw
text, and the result of `json.loads` (`none` models `JSONDecodeError`). -/
inductive AttemptOutcome
  | timeoutErr
  | clientErr (msg : String)
  | resp (status : Nat) (retryAfterUC retryAfterLC : Option String)
      (text : String) (parsed : Option ParsedJson)
deriving DecidableEq, Repr

/-- The `last_error` local of `async_request`. -/
inductive LastErr
  | timeoutE
  | clientE (msg : String)
deriving DecidableEq, Repr

/-- Exceptions escaping `async_request`.  `tokenAuth` and `auth` are both
`NetatmoAuthError` at runtime (the former raised at the token fetch,
api.py line 138); `rateLimit` is `NetatmoRateLimitError`, `timeout` is
`NetatmoTimeoutError`, `api` is `NetatmoAPIError`.  `valueError` models
the uncaught `ValueError` from `int()` on a malformed `Retry-After`
value (api.py line 173), which is none of the typed Netatmo classes. -/
inductive NetErr
  | tokenAuth (msg : String)
  | auth (msg : String)
  | rateLimit (msg : String)
  | timeout (msg : String)
  | api (msg : String)
  | valueError (s : String)
deriving DecidableEq, Repr

/-- Message carried by the exception, as Python `str(err)` renders it. -/
def NetErr.message : NetErr → String
  | tokenAuth m => m
  | auth m => m
  | rateLimit m => m
  | timeout m => m
  | api m => m
  | valueError s => s

/-- True for the two constructors that are `NetatmoAuthError` instances. -/
def NetErr.isNetatmoAuth : NetErr → Bool
  | tokenAuth _ => true
  | auth _ => true
  | _ => false

/-- True exactly for the error raised at the token fetch. -/
def NetErr.isTokenAuth : NetErr → Bool
  | tokenAuth _ => true
  | _ => false

/-- True exactly for the uncaught `ValueError` escape. -/
def NetErr.isValueError : NetErr → Bool
  | valueError _ => true
  | _ => false

/-- True for the typed Netatmo error classes of the documented taxonomy. -/
def NetErr.isTypedNetatmoError : NetErr → Bool
  | valueError _ => false
  | _ => true

/-- Mutable client state touched by `async_request`. -/
structure ClientState where
  request_timestamps : List ℚ
  consecutive_failures : Nat
deriving DecidableEq, Repr

/-- Result of one `async_request` call: the returned parsed body or the
escaping exception, the final client state, and the sleeps performed (rate
limiter waits and retry backoffs, in order). -/
structure RunResult where
  result : Except NetErr ParsedJson
  state : ClientState
  sleeps : List ℚ
deriving Repr

/-- Exponential backoff of api.py:
`min(INITIAL_BACKOFF * (2 ** attempt), MAX_BACKOFF)`. -/
def backoff (attempt : Nat) : ℚ :=
  min (INITIAL_BACKOFF * 2 ^ attempt) MAX_BACKOFF

/-- Code 403 branch reads `err_res.get("error", {}).get("code")` and applies
`str`; an absent code renders as `"None"`. -/
def str403Code : Option String → String
  | some s => s
  | none => "None"

/-- Increment of `self._consecutive_failures`. -/
def bumpFailures (st : ClientState) : ClientState :=
  { st with consecutive_failures := st.consecutive_failures + 1 }

/-- The retry loop of `async_request` (api.py lines 129-246).  `fuel` is the
number of loop iterations still available (entered with `MAX_RETRIES + 1`);
`attempt` is the Python loop variable; `ci` indexes the clock; `lastError`
is the `last_error` local; `sleeps` accumulates every `asyncio.sleep`.
The `fuel = 0` case is the fall-through after the `for` loop (reachable
only after a transport error on the final attempt). -/
def async_request_loop (script : Nat → TokenOutcome × AttemptOutcome)
    (clock : Nat → ℚ) :
    Nat → Nat → Nat → Option LastErr → ClientState → List ℚ → RunResult
  | 0, _, _, lastError, st, sleeps =>
    let st := bumpFailures st
    match lastError with
    | some LastErr.timeoutE =>
      { result := Except.error (NetErr.timeout "Request timed out after 3 retries"),
        state := st, sleeps := sleeps }
    | some (LastErr.clientE m) =>
      { result := Except.error (NetErr.api ("API request failed: " ++ m)),
        state := st, sleeps := sleeps }
    | none =>
      { result := Except.error (NetErr.api "Request failed for unknown reason"),
        state := st, sleeps := sleeps }
  | fuel + 1, attempt, ci, lastError, st, sleeps =>
    let rl := check_rate_limit st.request_timestamps (clock ci) (clock (ci + 1))
    let st := { st with request_timestamps := rl.1 }
    let sleeps := match rl.2 with
      | some w => sleeps ++ [w]
      | none => sleeps
    let ci := ci + 2
    match script attempt with
    | (TokenOutcome.tokenFail m, _) =>
      { result := Except.error (NetErr.tokenAuth ("Failed to get access token: " ++ m)),
        state := st, sleeps := sleeps }
    | (TokenOutcome.tok _, AttemptOutcome.timeoutErr) =>
      if attempt < MAX_RETRIES then
        async_request_loop script clock fuel (attempt + 1) ci
          (some LastErr.timeoutE) st (sleeps ++ [backoff attempt])
      else
        async_request_loop script clock 0 (attempt + 1) ci
          (some LastErr.timeoutE) st sleeps
    | (TokenOutcome.tok _, AttemptOutcome.clientErr m) =>
      if attempt < MAX_RETRIES then
        async_request_loop script clock fuel (attempt + 1) ci
          (some (LastErr.clientE m)) st (sleeps ++ [backoff attempt])
      else
        async_request_loop script clock 0 (attempt + 1) ci
          (some (LastErr.clientE m)) st sleeps
    | (TokenOutcome.tok _, AttemptOutcome.resp status hU hL text parsed) =>
      if status = 401 then
        { result := Except.error
            (NetErr.auth ("Unauthorized - token may be invalid. Response: " ++ text)),
          state := bumpFailures st, sleeps := sleeps }
      else if status = 403 then
        match parsed with
        | some p =>
          if TRANSIENT_ERROR_CODES.contains (str403Code p.errorCode)
              ∧ attempt < MAX_RETRIES then
            async_request_loop script clock fuel (attempt + 1) ci lastError st
              (sleeps ++ [backoff attempt])
          else
            { result := Except.error
                (NetErr.auth ("Forbidden - re-authentication required. Response: " ++ text)),
              state := bumpFailures st, sleeps := sleeps }
        | none =>
          { result := Except.error
              (NetErr.auth ("Forbidden - re-authentication required. Response: " ++ text)),
            state := bumpFailures st, sleeps := sleeps }
      else if status = 429 then
        match pyInt (retryAfterLookup hU hL) with
        | none =>
          { result := Except.error (NetErr.valueError (retryAfterLookup hU hL)),
            state := st, sleeps := sleeps }
        | some ra =>
          if attempt < MAX_RETRIES then
            async_request_loop script clock fuel (attempt + 1) ci lastError st
              (sleeps ++ [((min ra 30 : ℤ) : ℚ)])
          else
            { result := Except.error (NetErr.rateLimit "Rate limited after 3 retries"),
              state := bumpFailures st, sleeps := sleeps }
      else if 500 ≤ status then
        if attempt < MAX_RETRIES then
          async_request_loop script clock fuel (attempt + 1) ci lastError st
            (sleeps ++ [backoff attempt])
        else
          { result := Except.error
              (NetErr.api ("Server error " ++ toString status ++ " after 3 retries: " ++ text)),
            state := bumpFailures st, sleeps := sleeps }
      else if 400 ≤ status then
        { result := Except.error
            (NetErr.api ("Client error " ++ toString status ++ ": " ++ text)),
          state := bumpFailures st, sleeps := sleeps }
      else
        match parsed with
        | none =>
          { result := Except.error (NetErr.api "Invalid JSON response"),
            state := bumpFailures st, sleeps := sleeps }
        | some p =>
          if p.status ≠ some "ok" then
            let errorMsg := p.errorMessage.getD "Unknown error"
            let errorCode := p.errorCode.getD "unknown"
            if TRANSIENT_ERROR_CODES.contains errorCode ∧ attempt < MAX_RETRIES then
              async_request_loop script clock fuel (attempt + 1) ci lastError st
                (sleeps ++ [backoff attempt])
            else
              { result := Except.error
                  (NetErr.api ("API returned error: " ++ errorCode ++ " - " ++ errorMsg)),
                state := bumpFailures st, sleeps := sleeps }
          else
            { result := Except.ok p,
              state := { st with consecutive_failures := 0 }, sleeps := sleeps }

/-- `NetatmoAPI.async_request` on a scripted environment, starting at
attempt 0 with the full attempt budget. -/
def async_request (script : Nat → TokenOutcome × AttemptOutcome)
    (clock : Nat → ℚ) (st : ClientState) : RunResult :=
  async_request_loop script clock (MAX_RETRIES + 1) 0 0 none st []

/-! ## Coordinator (`NetatmoDataUpdateCoordinator`, coordinator.py) -/

/-- The dict `_async_update_data` returns.  The success path builds it
without `stale` and `last_error` keys; absence is modelled by the defaults
the readers apply (`data.get("stale", False)`). -/
structure Snapshot where
  homes_data : ParsedJson
  home_status : ParsedJson
  timestamp : ℚ
  update_successful : Bool
  stale : Bool
  last_error : Option String
deriving DecidableEq, Repr

/-- Coordinator state touched by `_adjust_update_interval` and
`_async_update_data`.  `data` is the framework-held previous snapshot. -/
structure CoordinatorState where
  data : Option Snapshot
  consecutive_update_failures : Nat
  update_interval : ℚ
  last_successful_update : Option ℚ
  base_update_interval : ℚ
deriving DecidableEq, Repr

/-- `NetatmoDataUpdateCoordinator._adjust_update_interval`
(coordinator.py lines 62-85).  The Python float arithmetic
(`1.5 ** min(streak, 5)` times the base, capped) is exact for these
dyadic values, so the rational model computes identical numbers. -/
def adjust_update_interval (st : CoordinatorState) (success : Bool) :
    CoordinatorState :=
  if success then
    { st with consecutive_update_failures := 0,
              update_interval := st.base_update_interval }
  else
    let failures := st.consecutive_update_failures + 1
    let backoff_factor := FAILURE_BACKOFF_MULTIPLIER ^ min failures 5
    let new_interval := min (st.base_update_interval * backoff_factor)
        MAX_UPDATE_INTERVAL
    { st with consecutive_update_failures := failures,
              update_interval := new_interval }

/-- Which `except` clause of `_async_update_data` an escaping exception
reaches.  `NetatmoAuthError` (both raise sites) is caught first; the other
typed errors are `NetatmoAPIError` subclasses; the stray `ValueError`
falls to the generic `except Exception` clause. -/
inductive ErrClass
  | authE
  | apiE
  | otherE
deriving DecidableEq, Repr

/-- Classify an escaping client exception by the coordinator's `except`
chain. -/
def fetchErrClass : NetErr → ErrClass
  | NetErr.tokenAuth _ => ErrClass.authE
  | NetErr.auth _ => ErrClass.authE
  | NetErr.rateLimit _ => ErrClass.apiE
  | NetErr.timeout _ => ErrClass.apiE
  | NetErr.api _ => ErrClass.apiE
  | NetErr.valueError _ => ErrClass.otherE

/-- `NetatmoDataUpdateCoordinator._async_update_data`
(coordinator.py lines 87-145).  `fetch` is the joint outcome of the
`async_get_homes_data` / `async_get_home_status` pair; `now1` is the
`time.time()` stored in `_last_successful_update`, `now2` the one stamped
into the returned dict.  Returns the dict or the `UpdateFailed` message,
with the updated coordinator state. -/
def async_update_data (st : CoordinatorState)
    (fetch : Except NetErr (ParsedJson × ParsedJson)) (now1 now2 : ℚ) :
    Except String Snapshot × CoordinatorState :=
  match fetch with
  | Except.ok bodies =>
    let st := { st with last_successful_update := some now1 }
    let st := adjust_update_interval st true
    (Except.ok { homes_data := bodies.1, home_status := bodies.2,
                 timestamp := now2, update_successful := true,
                 stale := false, last_error := none }, st)
  | Except.error e =>
    match fetchErrClass e with
    | ErrClass.authE =>
      let st := adjust_update_interval st false
      (Except.error ("Authentication error - reauth may be required: " ++ e.message), st)
    | ErrClass.apiE =>
      let st := adjust_update_interval st false
      match st.data with
      | some prev =>
        if st.consecutive_update_failures ≤ 3 then
          (Except.ok { prev with
              timestamp := prev.timestamp,
              update_successful := false, stale := true,
              last_error := some e.message }, st)
        else
          (Except.error ("Error communicating with Netatmo API: " ++ e.message), st)
      | none =>
        (Except.error ("Error communicating with Netatmo API: " ++ e.message), st)
    | ErrClass.otherE =>
      let st := adjust_update_interval st false
      (Except.error ("Unexpected error: " ++ e.message), st)

/-! ## Webhook handler (`webhook.py` lines 29-73) -/

/-- Scripted environment for one inbound webhook request: the outcome of
`request.text()` (an exception lands in the outer handler), the outcome of
`request.json()` (`none` models a parse failure), and whether
`coordinator.async_handle_webhook` raises. -/
structure WebhookEnv where
  textResult : Except String String
  jsonResult : Option ParsedJson
  refreshError : Option String
deriving Repr

/-- The payload handed to the coordinator: the parsed JSON, or the
fallback dict `{"raw_body": body}`. -/
inductive WebhookData
  | parsed (p : ParsedJson)
  | rawBody (body : String)
deriving DecidableEq, Repr

/-- An HTTP response from the handler. -/
structure WebResponse where
  status : Nat
  text : String
deriving DecidableEq, Repr

/-- The registered `webhook_handler`: every internal failure is swallowed
and acknowledged with status 200. -/
def webhook_handler (env : WebhookEnv) : WebResponse :=
  match env.textResult with
  | Except.error _ => { status := 200, text := "Error processed" }
  | Except.ok body =>
    let _data : WebhookData := match env.jsonResult with
      | some p => WebhookData.parsed p
      | none => WebhookData.rawBody body
    match env.refreshError with
    | some _ => { status := 200, text := "Error processed" }
    | none => { status := 200, text := "OK" }

/-! ## Helper lemmas -/

/-- A rate-limit check never grows the window by more than one entry. -/
theorem check_rate_limit_len (ts : List ℚ) (now now2 : ℚ) :
    (check_rate_limit ts now now2).1.length ≤ ts.length + 1 := by
  have h := List.length_filter_le (fun t => decide (now - t < RATE_LIMIT_WINDOW)) ts
  simp only [check_rate_limit, List.length_append, List.length_cons, List.length_nil]
  omega

/-- Below the ceiling, the rate-limit check performs no sleep. -/
theorem check_rate_limit_no_sleep (ts : List ℚ) (now now2 : ℚ)
    (h : ts.length < RATE_LIMIT_MAX_REQUESTS) :
    (check_rate_limit ts now now2).2 = none := by
  have hf := List.length_filter_le (fun t => decide (now - t < RATE_LIMIT_WINDOW)) ts
  simp only [check_rate_limit]
  rw [if_neg]
  omega

/-! ## Step lemmas for the `async_request` retry loop -/

/-- A 5xx response on a non-final attempt sleeps the exponential backoff and
retries. -/
theorem step_retry_5xx (script : Nat → TokenOutcome × AttemptOutcome) (clock : Nat → ℚ)
    (fuel attempt ci : Nat) (le : Option LastErr) (st : ClientState) (sleeps : List ℚ)
    (status : Nat) (hU hL : Option String) (text : String) (parsed : Option ParsedJson)
    (tk : String)
    (hs : script attempt = (TokenOutcome.tok tk, AttemptOutcome.resp status hU hL text parsed))
    (h5 : 500 ≤ status) (hlt : attempt < MAX_RETRIES)
    (hlen : st.request_timestamps.length < RATE_LIMIT_MAX_REQUESTS) :
    async_request_loop script clock (fuel + 1) attempt ci le st sleeps
      = async_request_loop script clock fuel (attempt + 1) (ci + 2) le
          { st with request_timestamps :=
              (check_rate_limit st.request_timestamps (clock ci) (clock (ci + 1))).1 }
          (sleeps ++ [backoff attempt]) := by
  have hrl := check_rate_limit_no_sleep st.request_timestamps (clock ci) (clock (ci + 1)) hlen
  simp only [async_request_loop, hs, hrl]
  rw [if_neg (by omega : ¬ status = 401), if_neg (by omega : ¬ status = 403),
    if_neg (by omega : ¬ status = 429), if_pos h5, if_pos hlt]

/-- A 5xx response on the final attempt raises the generic API error and
bumps the failure counter. -/
theorem step_exhaust_5xx (script : Nat → TokenOutcome × AttemptOutcome) (clock : Nat → ℚ)
    (fuel attempt ci : Nat) (le : Option LastErr) (st : ClientState) (sleeps : List ℚ)
    (status : Nat) (hU hL : Option String) (text : String) (parsed : Option ParsedJson)
    (tk : String)
    (hs : script attempt = (TokenOutcome.tok tk, AttemptOutcome.resp status hU hL text parsed))
    (h5 : 500 ≤ status) (hge : MAX_RETRIES ≤ attempt)
    (hlen : st.request_timestamps.length < RATE_LIMIT_MAX_REQUESTS) :
    async_request_loop script clock (fuel + 1) attempt ci le st sleeps
      = { result := Except.error
            (NetErr.api ("Server error " ++ toString status ++ " after 3 retries: " ++ text)),
          state := bumpFailures { st with request_timestamps :=
            (check_rate_limit st.request_timestamps (clock ci) (clock (ci + 1))).1 },
          sleeps := sleeps } := by
  have hrl := check_rate_limit_no_sleep st.request_timestamps (clock ci) (clock (ci + 1)) hlen
  simp only [async_request_loop, hs, hrl]
  rw [if_neg (by omega : ¬ status = 401), if_neg (by omega : ¬ status = 403),
    if_neg (by omega : ¬ status = 429), if_pos h5, if_neg (by omega : ¬ attempt < MAX_RETRIES)]

/-- A sub-400 response that is not 401/403/429, parses, and carries a
`status = "ok"` envelope succeeds, resetting the failure counter. -/
theorem step_success (script : Nat → TokenOutcome × AttemptOutcome) (clock : Nat → ℚ)
    (fuel attempt ci : Nat) (le : Option LastErr) (st : ClientState) (sleeps : List ℚ)
    (status : Nat) (hU hL : Option String) (text : String) (p : ParsedJson) (tk : String)
    (hs : script attempt = (TokenOutcome.tok tk, AttemptOutcome.resp status hU hL text (some p)))
    (h4 : status < 400) (hok : p.status = some "ok")
    (hlen : st.request_timestamps.length < RATE_LIMIT_MAX_REQUESTS) :
    async_request_loop script clock (fuel + 1) attempt ci le st sleeps
      = { result := Except.ok p,
          state := { st with
            request_timestamps :=
              (check_rate_limit st.request_timestamps (clock ci) (clock (ci + 1))).1,
            consecutive_failures := 0 },
          sleeps := sleeps } := by
  have hrl := check_rate_limit_no_sleep st.request_timestamps (clock ci) (clock (ci + 1)) hlen
  simp only [async_request_loop, hs, hrl]
  rw [if_neg (by omega : ¬ status = 401), if_neg (by omega : ¬ status = 403),
    if_neg (by omega : ¬ status = 429), if_neg (by omega : ¬ 500 ≤ status),
    if_neg (by omega : ¬ 400 ≤ status), if_neg (by simp [hok] : ¬ p.status ≠ some "ok")]

/-- A sub-400 response with a non-ok envelope and a transient vendor error
code on a non-final attempt sleeps the backoff and retries. -/
theorem step_retry_vendor (script : Nat → TokenOutcome × AttemptOutcome) (clock : Nat → ℚ)
    (fuel attempt ci : Nat) (le : Option LastErr) (st : ClientState) (sleeps : List ℚ)
    (status : Nat) (hU hL : Option String) (text : String) (p : ParsedJson) (tk : String)
    (hs : script attempt = (TokenOutcome.tok tk, AttemptOutcome.resp status hU hL text (some p)))
    (h4 : status < 400) (hnok : p.status ≠ some "ok")
    (hcode : TRANSIENT_ERROR_CODES.contains (p.errorCode.getD "unknown") = true)
    (hlt : attempt < MAX_RETRIES)
    (hlen : st.request_timestamps.length < RATE_LIMIT_MAX_REQUESTS) :
    async_request_loop script clock (fuel + 1) attempt ci le st sleeps
      = async_request_loop script clock fuel (attempt + 1) (ci + 2) le
          { st with request_timestamps :=
              (check_rate_limit st.request_timestamps (clock ci) (clock (ci + 1))).1 }
          (sleeps ++ [backoff attempt]) := by
  have hrl := check_rate_limit_no_sleep st.request_timestamps (clock ci) (clock (ci + 1)) hlen
  simp only [async_request_loop, hs, hrl]
  rw [if_neg (by omega : ¬ status = 401), if_neg (by omega : ¬ status = 403),
    if_neg (by omega : ¬ status = 429), if_neg (by omega : ¬ 500 ≤ status),
    if_neg (by omega : ¬ 400 ≤ status), if_pos hnok, if_pos ⟨hcode, hlt⟩]

/-- A sub-400 response with a non-ok envelope raises immediately with the
vendor code and message when the code is not transient or the budget is
spent. -/
theorem step_fatal_vendor (script : Nat → TokenOutcome × AttemptOutcome) (clock : Nat → ℚ)
    (fuel attempt ci : Nat) (le : Option LastErr) (st : ClientState) (sleeps : List ℚ)
    (status : Nat) (hU hL : Option String) (text : String) (p : ParsedJson) (tk : String)
    (hs : script attempt = (TokenOutcome.tok tk, AttemptOutcome.resp status hU hL text (some p)))
    (h4 : status < 400) (hnok : p.status ≠ some "ok")
    (hno : ¬ (TRANSIENT_ERROR_CODES.contains (p.errorCode.getD "unknown") = true
        ∧ attempt < MAX_RETRIES))
    (hlen : st.request_timestamps.length < RATE_LIMIT_MAX_REQUESTS) :
    async_request_loop script clock (fuel + 1) attempt ci le st sleeps
      = { result := Except.error
            (NetErr.api ("API returned error: " ++ p.errorCode.getD "unknown" ++ " - "
              ++ p.errorMessage.getD "Unknown error")),
          state := bumpFailures { st with request_timestamps :=
            (check_rate_limit st.request_timestamps (clock ci) (clock (ci + 1))).1 },
          sleeps := sleeps } := by
  have hrl := check_rate_limit_no_sleep st.request_timestamps (clock ci) (clock (ci + 1)) hlen
  simp only [async_request_loop, hs, hrl]
  rw [if_neg (by omega : ¬ status = 401), if_neg (by omega : ¬ status = 403),
    if_neg (by omega : ¬ status = 429), if_neg (by omega : ¬ 500 ≤ status),
    if_neg (by omega : ¬ 400 ≤ status), if_pos hnok, if_neg hno]

/-- A 429 response whose effective `Retry-After` value parses, on a
non-final attempt, sleeps `min(retry_after, MAX_BACKOFF)` and retries. -/
theorem step_retry_429 (script : Nat → TokenOutcome × AttemptOutcome) (clock : Nat → ℚ)
    (fuel attempt ci : Nat) (le : Option LastErr) (st : ClientState) (sleeps : List ℚ)
    (hU hL : Option String) (text : String) (parsed : Option ParsedJson) (tk : String)
    (ra : Int)
    (hs : script attempt = (TokenOutcome.tok tk, AttemptOutcome.resp 429 hU hL text parsed))
    (hra : pyInt (retryAfterLookup hU hL) = some ra) (hlt : attempt < MAX_RETRIES)
    (hlen : st.request_timestamps.length < RATE_LIMIT_MAX_REQUESTS) :
    async_request_loop script clock (fuel + 1) attempt ci le st sleeps
      = async_request_loop script clock fuel (attempt + 1) (ci + 2) le
          { st with request_timestamps :=
              (check_rate_limit st.request_timestamps (clock ci) (clock (ci + 1))).1 }
          (sleeps ++ [((min ra 30 : ℤ) : ℚ)]) := by
  have hrl := check_rate_limit_no_sleep st.request_timestamps (clock ci) (clock (ci + 1)) hlen
  simp only [async_request_loop, hs, hrl, hra]
  simp [hlt]

/-- A 429 response on the final attempt raises the rate-limit error and
bumps the failure counter. -/
theorem step_exhaust_429 (script : Nat → TokenOutcome × AttemptOutcome) (clock : Nat → ℚ)
    (fuel attempt ci : Nat) (le : Option LastErr) (st : ClientState) (sleeps : List ℚ)
    (hU hL : Option String) (text : String) (parsed : Option ParsedJson) (tk : String)
    (ra : Int)
    (hs : script attempt = (TokenOutcome.tok tk, AttemptOutcome.resp 429 hU hL text parsed))
    (hra : pyInt (retryAfterLookup hU hL) = some ra) (hge : MAX_RETRIES ≤ attempt)
    (hlen : st.request_timestamps.length < RATE_LIMIT_MAX_REQUESTS) :
    async_request_loop script clock (fuel + 1) attempt ci le st sleeps
      = { result := Except.error (NetErr.rateLimit "Rate limited after 3 retries"),
          state := bumpFailures { st with request_timestamps :=
            (check_rate_limit st.request_timestamps (clock ci) (clock (ci + 1))).1 },
          sleeps := sleeps } := by
  have hrl := check_rate_limit_no_sleep st.request_timestamps (clock ci) (clock (ci + 1)) hlen
  simp only [async_request_loop, hs, hrl, hra]
  simp [show ¬ attempt < MAX_RETRIES from by omega]

/-- A 429 response whose effective `Retry-After` value fails integer
parsing escapes with the uncaught `ValueError`, leaving the failure counter
untouched. -/
theorem step_valueerror_429 (script : Nat → TokenOutcome × AttemptOutcome) (clock : Nat → ℚ)
    (fuel attempt ci : Nat) (le : Option LastErr) (st : ClientState) (sleeps : List ℚ)
    (hU hL : Option String) (text : String) (parsed : Option ParsedJson) (tk : String)
    (hs : script attempt = (TokenOutcome.tok tk, AttemptOutcome.resp 429 hU hL text parsed))
    (hra : pyInt (retryAfterLookup hU hL) = none)
    (hlen : st.request_timestamps.length < RATE_LIMIT_MAX_REQUESTS) :
    async_request_loop script clock (fuel + 1) attempt ci le st sleeps
      = { result := Except.error (NetErr.valueError (retryAfterLookup hU hL)),
          state := { st with request_timestamps :=
            (check_rate_limit st.request_timestamps (clock ci) (clock (ci + 1))).1 },
          sleeps := sleeps } := by
  have hrl := check_rate_limit_no_sleep st.request_timestamps (clock ci) (clock (ci + 1)) hlen
  simp only [async_request_loop, hs, hrl, hra]
  simp

/-! ## Claim C3 — adaptive polling interval -/

/-- C3: after each refresh failure the polling interval becomes
`base * multiplier ^ min(streak, 5)` capped at the maximum interval (in
particular, after exactly one failure it is `base * multiplier`, below the
cap for the configured base 60); the next successful refresh returns the
interval exactly to base and resets the streak to 0. -/
theorem c3_adaptive_interval (st : CoordinatorState) :
    (adjust_update_interval st false).consecutive_update_failures
        = st.consecutive_update_failures + 1 ∧
    (adjust_update_interval st false).update_interval
        = min (st.base_update_interval *
            FAILURE_BACKOFF_MULTIPLIER ^ min (st.consecutive_update_failures + 1) 5)
          MAX_UPDATE_INTERVAL ∧
    (st.consecutive_update_failures = 0 → st.base_update_interval = UPDATE_INTERVAL →
      (adjust_update_interval st false).update_interval
        = UPDATE_INTERVAL * FAILURE_BACKOFF_MULTIPLIER) ∧
    (adjust_update_interval (adjust_update_interval st false) true).update_interval
        = st.base_update_interval ∧
    (adjust_update_interval (adjust_update_interval st false) true).consecutive_update_failures
        = 0 := by
  refine ⟨rfl, rfl, ?_, rfl, rfl⟩
  intro h0 hbase
  simp only [adjust_update_interval, Bool.false_eq_true, if_false, h0, hbase]
  norm_num [UPDATE_INTERVAL, FAILURE_BACKOFF_MULTIPLIER, MAX_UPDATE_INTERVAL]

/-- Witness for C3 at a concrete coordinator state with base interval 60
and a clean streak. -/
theorem c3_adaptive_interval_witness :
    (adjust_update_interval ⟨none, 0, 60, none, 60⟩ false).update_interval
        = UPDATE_INTERVAL * FAILURE_BACKOFF_MULTIPLIER ∧
    (adjust_update_interval
        (adjust_update_interval ⟨none, 0, 60, none, 60⟩ false) true).update_interval = 60 ∧
    (adjust_update_interval
        (adjust_update_interval ⟨none, 0, 60, none, 60⟩ false) true).consecutive_update_failures
      = 0 :=
  ⟨(c3_adaptive_interval ⟨none, 0, 60, none, 60⟩).2.2.1 rfl rfl,
   (c3_adaptive_interval ⟨none, 0, 60, none, 60⟩).2.2.2.1,
   (c3_adaptive_interval ⟨none, 0, 60, none, 60⟩).2.2.2.2⟩

/-! ## Claim C1 — coordinator soft degradation -/

/-- C1: when a refresh fails with a non-authentication API error
(`NetatmoAPIError` not caught as `NetatmoAuthError`), then with a previous
snapshot present and a failure streak (counting this failure) of at most 3
the coordinator returns the previous structure/status content unchanged,
re-tagged `stale = true` with the error string recorded; once the streak
exceeds 3, or with no snapshot, the same error surfaces as a hard
`UpdateFailed`.  An authentication-classified error, by contrast, always
surfaces as a hard failure and is never soft-degraded. -/
theorem c1_soft_degradation (st : CoordinatorState) (prev : Snapshot) (e : NetErr)
    (now1 now2 : ℚ) (hdata : st.data = some prev)
    (hcls : fetchErrClass e = ErrClass.apiE) :
    (st.consecutive_update_failures + 1 ≤ 3 →
      (async_update_data st (Except.error e) now1 now2).1
        = Except.ok { homes_data := prev.homes_data, home_status := prev.home_status,
                      timestamp := prev.timestamp, update_successful := false,
                      stale := true, last_error := some e.message }) ∧
    (3 < st.consecutive_update_failures + 1 →
      (async_update_data st (Except.error e) now1 now2).1
        = Except.error ("Error communicating with Netatmo API: " ++ e.message)) ∧
    (∀ st2 : CoordinatorState, st2.data = none →
      (async_update_data st2 (Except.error e) now1 now2).1
        = Except.error ("Error communicating with Netatmo API: " ++ e.message)) ∧
    (∀ (st3 : CoordinatorState) (e2 : NetErr), fetchErrClass e2 = ErrClass.authE →
      (async_update_data st3 (Except.error e2) now1 now2).1
        = Except.error ("Authentication error - reauth may be required: "
            ++ e2.message)) := by
  have hdata' : (adjust_update_interval st false).data = some prev := hdata
  have hcf : (adjust_update_interval st false).consecutive_update_failures
      = st.consecutive_update_failures + 1 := rfl
  refine ⟨?_, ?_, ?_, ?_⟩
  · intro hle
    simp only [async_update_data, hcls, hdata', hcf]
    rw [if_pos hle]
  · intro hgt
    simp only [async_update_data, hcls, hdata', hcf]
    rw [if_neg (by omega : ¬ st.consecutive_update_failures + 1 ≤ 3)]
  · intro st2 hnone
    have hnone' : (adjust_update_interval st2 false).data = none := hnone
    simp only [async_update_data, hcls, hnone']
  · intro st3 e2 h2
    simp only [async_update_data, h2]

/-- Witness for C1: a concrete previous snapshot, an api-classified error,
streak 0 before the failure (soft path), streak 4 before the failure (hard
path), and the no-snapshot case. -/
theorem c1_soft_degradation_witness :
    (async_update_data
        ⟨some ⟨⟨some "ok", none, none, "HD"⟩, ⟨some "ok", none, none, "HS"⟩, 100, true, false, none⟩,
         0, 60, some 100, 60⟩
        (Except.error (NetErr.api "boom")) 101 102).1
      = Except.ok ⟨⟨some "ok", none, none, "HD"⟩, ⟨some "ok", none, none, "HS"⟩,
                   100, false, true, some "boom"⟩ ∧
    (async_update_data
        ⟨some ⟨⟨some "ok", none, none, "HD"⟩, ⟨some "ok", none, none, "HS"⟩, 100, true, false, none⟩,
         4, 60, some 100, 60⟩
        (Except.error (NetErr.api "boom")) 101 102).1
      = Except.error "Error communicating with Netatmo API: boom" ∧
    (async_update_data ⟨none, 0, 60, none, 60⟩
        (Except.error (NetErr.api "boom")) 101 102).1
      = Except.error "Error communicating with Netatmo API: boom" ∧
    (async_update_data ⟨none, 0, 60, none, 60⟩
        (Except.error (NetErr.auth "denied")) 101 102).1
      = Except.error "Authentication error - reauth may be required: denied" :=
  ⟨(c1_soft_degradation _ _ (NetErr.api "boom") 101 102 rfl rfl).1 (by decide),
   (c1_soft_degradation
      ⟨some ⟨⟨some "ok", none, none, "HD"⟩, ⟨some "ok", none, none, "HS"⟩, 100, true, false, none⟩,
       4, 60, some 100, 60⟩
      ⟨⟨some "ok", none, none, "HD"⟩, ⟨some "ok", none, none, "HS"⟩, 100, true, false, none⟩
      (NetErr.api "boom") 101 102 rfl rfl).2.1 (by decide),
   (c1_soft_degradation
      ⟨some ⟨⟨some "ok", none, none, "HD"⟩, ⟨some "ok", none, none, "HS"⟩, 100, true, false, none⟩,
       0, 60, some 100, 60⟩
      ⟨⟨some "ok", none, none, "HD"⟩, ⟨some "ok", none, none, "HS"⟩, 100, true, false, none⟩
      (NetErr.api "boom") 101 102 rfl rfl).2.2.1 ⟨none, 0, 60, none, 60⟩ rfl,
   (c1_soft_degradation
      ⟨some ⟨⟨some "ok", none, none, "HD"⟩, ⟨some "ok", none, none, "HS"⟩, 100, true, false, none⟩,
       0, 60, some 100, 60⟩
      ⟨⟨some "ok", none, none, "HD"⟩, ⟨some "ok", none, none, "HS"⟩, 100, true, false, none⟩
      (NetErr.api "boom") 101 102 rfl rfl).2.2.2 ⟨none, 0, 60, none, 60⟩
      (NetErr.auth "denied") rfl⟩

/-! ## Claim C8 — webhook handler always acknowledges with 200 -/

/-- C8: for every inbound webhook request the registered handler returns an
HTTP 200 acknowledgment, even when payload parsing or the triggered
coordinator refresh raises: every internal failure path still answers
status 200. -/
theorem c8_webhook_always_acks (env : WebhookEnv) :
    (webhook_handler env).status = 200 := by
  cases ht : env.textResult with
  | error m => simp [webhook_handler, ht]
  | ok body => cases hr : env.refreshError <;> simp [webhook_handler, ht, hr]

/-! ## Claim C6 — the 41st back-to-back request is delayed -/

/-- The 41-call scenario of C6: 40 requests at time 0 fill the ceiling,
then one more check arrives at time 0 (its post-sleep append is read at
the sleep target 21/2). -/
def c6run : List ℚ × List (Option ℚ) :=
  runRateCalls (List.replicate 40 ((0 : ℚ), (0 : ℚ)) ++ [((0 : ℚ), 21 / 2)]) []

/-- C6: with a ceiling of 40 requests per 10-second window, whenever 40
in-window request timestamps are already recorded, the next check sleeps
exactly `RATE_LIMIT_WINDOW - (now - t1) + 1/2` — until the 1st timestamp
exits the window plus the 0.5 s safety margin — and that sleep is
positive; concretely, 41 requests issued as fast as possible leave the
first 40 undelayed while the 41st sleeps `10 - (0 - 0) + 1/2 = 21/2`. -/
theorem c6_rate_limit_delays_41st :
    (∀ (ts : List ℚ) (now now2 : ℚ),
      ts.length = 40 → (∀ t ∈ ts, now - t < RATE_LIMIT_WINDOW) →
      (check_rate_limit ts now now2).2
          = some (RATE_LIMIT_WINDOW - (now - ts.headD 0) + 1 / 2) ∧
      (0 : ℚ) < RATE_LIMIT_WINDOW - (now - ts.headD 0) + 1 / 2) ∧
    (c6run.2.take 40 = List.replicate 40 none ∧
      c6run.2.getLast? = some (some (21 / 2)) ∧
      (21 / 2 : ℚ) = RATE_LIMIT_WINDOW - ((0 : ℚ) - 0) + 1 / 2) := by
  constructor
  · intro ts now now2 hlen hin
    cases ts with
    | nil => simp at hlen
    | cons a tl =>
      have ha : now - a < RATE_LIMIT_WINDOW := hin a (List.mem_cons_self a tl)
      have hfil : (a :: tl).filter (fun t => now - t < RATE_LIMIT_WINDOW) = a :: tl :=
        List.filter_eq_self.mpr (fun b hb => decide_eq_true (hin b hb))
      have hpos : (0 : ℚ) < RATE_LIMIT_WINDOW - (now - (a :: tl).headD 0) + 1 / 2 := by
        simp only [List.headD_cons]
        linarith
      refine ⟨?_, hpos⟩
      simp only [check_rate_limit, hfil]
      rw [if_pos (by rw [hlen]; decide), if_pos (by simpa using hpos)]
  · refine ⟨?_, ?_, by norm_num [RATE_LIMIT_WINDOW]⟩ <;>
      norm_num [c6run, runRateCalls, check_rate_limit, RATE_LIMIT_WINDOW,
        RATE_LIMIT_MAX_REQUESTS, List.replicate]

/-- Witness for C6 at the state produced by 40 instantaneous requests:
the 41st check sleeps `10 - (0 - 0) + 1/2`. -/
theorem c6_rate_limit_delays_41st_witness :
    (check_rate_limit (List.replicate 40 (0 : ℚ)) 0 (21 / 2)).2
        = some (RATE_LIMIT_WINDOW
            - ((0 : ℚ) - (List.replicate 40 (0 : ℚ)).headD 0) + 1 / 2) ∧
    (0 : ℚ) < RATE_LIMIT_WINDOW
        - ((0 : ℚ) - (List.replicate 40 (0 : ℚ)).headD 0) + 1 / 2 :=
  c6_rate_limit_delays_41st.1 (List.replicate 40 0) 0 (21 / 2) (by simp)
    (by intro t ht
        rw [List.eq_of_mem_replicate ht]
        norm_num [RATE_LIMIT_WINDOW])

/-! ## Claim C7 — window entries versus the window length -/

/-- Counterexample to C7 as stated: after a single request checked at time
0 the stored window is `[0]`; at wall-clock time 20, still before any
further check, that entry is 20 seconds old — strictly older than the
10-second window — yet it is still in the window, because pruning is lazy
and happens only on the next check. -/
theorem c7_window_counterexample :
    (check_rate_limit [] 0 0).1 = [0] ∧
    (check_rate_limit [] 0 0).1.any
        (fun t => decide (RATE_LIMIT_WINDOW < (20 : ℚ) - t)) = true := by
  norm_num [check_rate_limit, RATE_LIMIT_WINDOW]

/-- C7 as amended: the in-window invariant holds at each check after the
pruning step — every entry of the window produced by a rate-limit check
is either the freshly appended timestamp or is younger than the window
length relative to the time `now` sampled by that check.  Between checks,
entries may age beyond the window until the next check prunes them. -/
theorem c7_window_pruned_each_check (ts : List ℚ) (now now2 t : ℚ)
    (ht : t ∈ (check_rate_limit ts now now2).1) :
    t = now2 ∨ now - t < RATE_LIMIT_WINDOW := by
  simp only [check_rate_limit, List.mem_append, List.mem_filter,
    List.mem_singleton, decide_eq_true_eq] at ht
  rcases ht with ⟨_, h⟩ | h
  · exact Or.inr h
  · exact Or.inl h

/-- Witness for the amended C7 at a concrete window. -/
theorem c7_window_pruned_each_check_witness :
    ((5 : ℚ) ∈ (check_rate_limit [5] 7 8).1) ∧
    ((5 : ℚ) = 8 ∨ (7 : ℚ) - 5 < RATE_LIMIT_WINDOW) :=
  ⟨by norm_num [check_rate_limit, RATE_LIMIT_WINDOW],
   c7_window_pruned_each_check [5] 7 8 5
     (by norm_num [check_rate_limit, RATE_LIMIT_WINDOW])⟩

/-! ## Failure-counter accounting over whole runs -/

/-- How one `async_request` run relates the final failure counter to the
initial one `cf0`: a run raising the token-fetch `NetatmoAuthError` or the
stray `ValueError` leaves the counter at `cf0`; every other raise leaves it
at `cf0 + 1`; a successful return resets it to 0. -/
def CfSpec (cf0 : Nat) (r : RunResult) : Prop :=
  (∀ e, r.result = Except.error e →
    ((e.isTokenAuth || e.isValueError) = true →
      r.state.consecutive_failures = cf0) ∧
    ((e.isTokenAuth || e.isValueError) = false →
      r.state.consecutive_failures = cf0 + 1)) ∧
  (∀ p, r.result = Except.ok p → r.state.consecutive_failures = 0)

/-- The post-loop fall-through (fuel 0) increments before raising. -/
theorem loop_cf_zero (script : Nat → TokenOutcome × AttemptOutcome) (clock : Nat → ℚ)
    (attempt ci : Nat) (le : Option LastErr) (st : ClientState) (sleeps : List ℚ) :
    CfSpec st.consecutive_failures
      (async_request_loop script clock 0 attempt ci le st sleeps) := by
  unfold CfSpec
  cases le with
  | none =>
    simp [async_request_loop, bumpFailures, NetErr.isTokenAuth, NetErr.isValueError]
  | some l =>
    cases l <;>
      simp [async_request_loop, bumpFailures, NetErr.isTokenAuth, NetErr.isValueError]

/-- Failure-counter accounting holds for the whole retry loop, for every
script, clock, and starting position. -/
theorem loop_cf (script : Nat → TokenOutcome × AttemptOutcome) (clock : Nat → ℚ) :
    ∀ (fuel attempt ci : Nat) (le : Option LastErr) (st : ClientState) (sleeps : List ℚ),
      CfSpec st.consecutive_failures
        (async_request_loop script clock fuel attempt ci le st sleeps) := by
  intro fuel
  induction fuel with
  | zero => intro attempt ci le st sleeps; exact loop_cf_zero script clock attempt ci le st sleeps
  | succ n ih =>
    intro attempt ci le st sleeps
    rcases hsc : script attempt with ⟨tf, o⟩
    cases tf with
    | tokenFail m =>
      simp only [async_request_loop, hsc]
      simp [CfSpec, NetErr.isTokenAuth, NetErr.isValueError]
    | tok tks =>
      cases o with
      | timeoutErr =>
        simp only [async_request_loop, hsc]
        repeat' split
        all_goals first
          | exact ih _ _ _ _ _
          | exact loop_cf_zero script clock _ _ _ _ _
          | simp [CfSpec, bumpFailures, NetErr.isTokenAuth, NetErr.isValueError]
      | clientErr m =>
        simp only [async_request_loop, hsc]
        repeat' split
        all_goals first
          | exact ih _ _ _ _ _
          | exact loop_cf_zero script clock _ _ _ _ _
          | simp [CfSpec, bumpFailures, NetErr.isTokenAuth, NetErr.isValueError]
      | resp status hU hL text parsed =>
        simp only [async_request_loop, hsc]
        repeat' split
        all_goals first
          | exact ih _ _ _ _ _
          | exact loop_cf_zero script clock _ _ _ _ _
          | simp [CfSpec, bumpFailures, NetErr.isTokenAuth, NetErr.isValueError]

/-! ## Length bookkeeping for chained attempts -/

/-- Window length after a check, bounded from a bound on the length
before. -/
theorem check_len_le (ts : List ℚ) (now now2 : ℚ) (k : Nat) (h : ts.length ≤ k) :
    (check_rate_limit ts now now2).1.length ≤ k + 1 := by
  have := check_rate_limit_len ts now now2
  omega

/-- A window shorter than 40 entries is below the rate-limit ceiling. -/
theorem len_lt_cap (ts : List ℚ) (k : Nat) (h : ts.length ≤ k) (hk : k < 40) :
    ts.length < RATE_LIMIT_MAX_REQUESTS := by
  have hR : RATE_LIMIT_MAX_REQUESTS = 40 := rfl
  omega

/-! ## Claim C2 — 5xx retry with exponential backoff, then success -/

/-- C2: for every sequence of at most 3 consecutive HTTP 5xx responses
followed by one 2xx response carrying a `status = "ok"` envelope, starting
from a fresh window, `async_request` sleeps the exponential backoff
`INITIAL_BACKOFF * 2 ^ attempt` (capped at `MAX_BACKOFF`) between
attempts, returns the parsed body of the successful response, and leaves
`consecutive_failures` at 0; and if all 4 attempts see 5xx, the generic
`NetatmoAPIError` is raised. -/
theorem c2_5xx_retry_then_success :
    (∀ (n : Nat), n ≤ 3 →
      ∀ (script : Nat → TokenOutcome × AttemptOutcome) (clock : Nat → ℚ) (cf : Nat)
        (s : Nat → Nat) (hU hL : Nat → Option String) (txt : Nat → String)
        (pb : Nat → Option ParsedJson) (tks : Nat → String) (p : ParsedJson),
        (∀ i, i < n → script i = (TokenOutcome.tok (tks i),
            AttemptOutcome.resp (s i) (hU i) (hL i) (txt i) (pb i))) →
        (∀ i, i < n → 500 ≤ s i) →
        script n = (TokenOutcome.tok (tks n),
            AttemptOutcome.resp (s n) (hU n) (hL n) (txt n) (some p)) →
        200 ≤ s n → s n < 300 → p.status = some "ok" →
        (async_request script clock ⟨[], cf⟩).result = Except.ok p ∧
        (async_request script clock ⟨[], cf⟩).state.consecutive_failures = 0 ∧
        (async_request script clock ⟨[], cf⟩).sleeps
          = (List.range n).map (fun i => min (INITIAL_BACKOFF * 2 ^ i) MAX_BACKOFF)) ∧
    (∀ (script : Nat → TokenOutcome × AttemptOutcome) (clock : Nat → ℚ) (cf : Nat)
        (s : Nat → Nat) (hU hL : Nat → Option String) (txt : Nat → String)
        (pb : Nat → Option ParsedJson) (tks : Nat → String),
        (∀ i, i ≤ 3 → script i = (TokenOutcome.tok (tks i),
            AttemptOutcome.resp (s i) (hU i) (hL i) (txt i) (pb i))) →
        (∀ i, i ≤ 3 → 500 ≤ s i) →
        (async_request script clock ⟨[], cf⟩).result
          = Except.error (NetErr.api
              ("Server error " ++ toString (s 3) ++ " after 3 retries: " ++ txt 3))) := by
  constructor
  · intro n hn script clock cf s hU hL txt pb tks p hsc h5 hsn h2a h2b hok
    interval_cases n
    · have e1 := step_success script clock MAX_RETRIES 0 0 none ⟨[], cf⟩ []
        (s 0) (hU 0) (hL 0) (txt 0) p (tks 0) hsn (by omega) hok
        (len_lt_cap [] 0 (by simp) (by omega))
      have etot : async_request script clock ⟨[], cf⟩ = _ := e1
      exact ⟨by rw [etot], by rw [etot], by rw [etot]; simp [List.range_succ, backoff]⟩
    · have e1 := step_retry_5xx script clock MAX_RETRIES 0 0 none ⟨[], cf⟩ []
        (s 0) (hU 0) (hL 0) (txt 0) (pb 0) (tks 0) (hsc 0 (by omega)) (h5 0 (by omega))
        (by decide) (len_lt_cap [] 0 (by simp) (by omega))
      have b1 := check_len_le [] (clock 0) (clock 1) 0 (by simp)
      have e2 := step_success script clock 2 1 2 none
        ⟨(check_rate_limit [] (clock 0) (clock 1)).1, cf⟩ [backoff 0]
        (s 1) (hU 1) (hL 1) (txt 1) p (tks 1) hsn (by omega) hok
        (len_lt_cap _ 1 b1 (by omega))
      have etot : async_request script clock ⟨[], cf⟩ = _ := e1.trans e2
      exact ⟨by rw [etot], by rw [etot], by rw [etot]; simp [List.range_succ, backoff]⟩
    · have e1 := step_retry_5xx script clock MAX_RETRIES 0 0 none ⟨[], cf⟩ []
        (s 0) (hU 0) (hL 0) (txt 0) (pb 0) (tks 0) (hsc 0 (by omega)) (h5 0 (by omega))
        (by decide) (len_lt_cap [] 0 (by simp) (by omega))
      have b1 := check_len_le [] (clock 0) (clock 1) 0 (by simp)
      have e2 := step_retry_5xx script clock 2 1 2 none
        ⟨(check_rate_limit [] (clock 0) (clock 1)).1, cf⟩ [backoff 0]
        (s 1) (hU 1) (hL 1) (txt 1) (pb 1) (tks 1) (hsc 1 (by omega)) (h5 1 (by omega))
        (by decide) (len_lt_cap _ 1 b1 (by omega))
      have b2 := check_len_le _ (clock 2) (clock 3) 1 b1
      have e3 := step_success script clock 1 2 4 none
        ⟨(check_rate_limit (check_rate_limit [] (clock 0) (clock 1)).1
            (clock 2) (clock 3)).1, cf⟩ [backoff 0, backoff 1]
        (s 2) (hU 2) (hL 2) (txt 2) p (tks 2) hsn (by omega) hok
        (len_lt_cap _ 2 b2 (by omega))
      have etot : async_request script clock ⟨[], cf⟩ = _ := e1.trans (e2.trans e3)
      exact ⟨by rw [etot], by rw [etot], by rw [etot]; simp [List.range_succ, backoff]⟩
    · have e1 := step_retry_5xx script clock MAX_RETRIES 0 0 none ⟨[], cf⟩ []
        (s 0) (hU 0) (hL 0) (txt 0) (pb 0) (tks 0) (hsc 0 (by omega)) (h5 0 (by omega))
        (by decide) (len_lt_cap [] 0 (by simp) (by omega))
      have b1 := check_len_le [] (clock 0) (clock 1) 0 (by simp)
      have e2 := step_retry_5xx script clock 2 1 2 none
        ⟨(check_rate_limit [] (clock 0) (clock 1)).1, cf⟩ [backoff 0]
        (s 1) (hU 1) (hL 1) (txt 1) (pb 1) (tks 1) (hsc 1 (by omega)) (h5 1 (by omega))
        (by decide) (len_lt_cap _ 1 b1 (by omega))
      have b2 := check_len_le _ (clock 2) (clock 3) 1 b1
      have e3 := step_retry_5xx script clock 1 2 4 none
        ⟨(check_rate_limit (check_rate_limit [] (clock 0) (clock 1)).1
            (clock 2) (clock 3)).1, cf⟩ [backoff 0, backoff 1]
        (s 2) (hU 2) (hL 2) (txt 2) (pb 2) (tks 2) (hsc 2 (by omega)) (h5 2 (by omega))
        (by decide) (len_lt_cap _ 2 b2 (by omega))
      have b3 := check_len_le _ (clock 4) (clock 5) 2 b2
      have e4 := step_success script clock 0 3 6 none
        ⟨(check_rate_limit (check_rate_limit (check_rate_limit [] (clock 0) (clock 1)).1
            (clock 2) (clock 3)).1 (clock 4) (clock 5)).1, cf⟩
        [backoff 0, backoff 1, backoff 2]
        (s 3) (hU 3) (hL 3) (txt 3) p (tks 3) hsn (by omega) hok
        (len_lt_cap _ 3 b3 (by omega))
      have etot : async_request script clock ⟨[], cf⟩ = _ := e1.trans (e2.trans (e3.trans e4))
      exact ⟨by rw [etot], by rw [etot], by rw [etot]; simp [List.range_succ, backoff]⟩
  · intro script clock cf s hU hL txt pb tks hsc h5
    have e1 := step_retry_5xx script clock MAX_RETRIES 0 0 none ⟨[], cf⟩ []
      (s 0) (hU 0) (hL 0) (txt 0) (pb 0) (tks 0) (hsc 0 (by omega)) (h5 0 (by omega))
      (by decide) (len_lt_cap [] 0 (by simp) (by omega))
    have b1 := check_len_le [] (clock 0) (clock 1) 0 (by simp)
    have e2 := step_retry_5xx script clock 2 1 2 none
      ⟨(check_rate_limit [] (clock 0) (clock 1)).1, cf⟩ [backoff 0]
      (s 1) (hU 1) (hL 1) (txt 1) (pb 1) (tks 1) (hsc 1 (by omega)) (h5 1 (by omega))
      (by decide) (len_lt_cap _ 1 b1 (by omega))
    have b2 := check_len_le _ (clock 2) (clock 3) 1 b1
    have e3 := step_retry_5xx script clock 1 2 4 none
      ⟨(check_rate_limit (check_rate_limit [] (clock 0) (clock 1)).1
          (clock 2) (clock 3)).1, cf⟩ [backoff 0, backoff 1]
      (s 2) (hU 2) (hL 2) (txt 2) (pb 2) (tks 2) (hsc 2 (by omega)) (h5 2 (by omega))
      (by decide) (len_lt_cap _ 2 b2 (by omega))
    have b3 := check_len_le _ (clock 4) (clock 5) 2 b2
    have e4 := step_exhaust_5xx script clock 0 3 6 none
      ⟨(check_rate_limit (check_rate_limit (check_rate_limit [] (clock 0) (clock 1)).1
          (clock 2) (clock 3)).1 (clock 4) (clock 5)).1, cf⟩
      [backoff 0, backoff 1, backoff 2]
      (s 3) (hU 3) (hL 3) (txt 3) (pb 3) (tks 3) (hsc 3 (by omega)) (h5 3 (by omega))
      (by decide) (len_lt_cap _ 3 b3 (by omega))
    have etot : async_request script clock ⟨[], cf⟩ = _ := e1.trans (e2.trans (e3.trans e4))
    rw [etot]

/-- Response script for the C2 witness: two 500s then a 200 with an ok
envelope. -/
def c2wit_s : Nat → Nat := fun i => if i < 2 then 500 else 200

/-- Parsed-body script for the C2 witness. -/
def c2wit_pb : Nat → Option ParsedJson := fun i =>
  if i < 2 then none else some ⟨some "ok", none, none, "B"⟩

/-- Request script for the C2 witness. -/
def c2wit_script : Nat → TokenOutcome × AttemptOutcome := fun i =>
  (TokenOutcome.tok "t", AttemptOutcome.resp (c2wit_s i) none none "boom" (c2wit_pb i))

/-- All-5xx script for the C2 witness. -/
def c2wit_allbad : Nat → TokenOutcome × AttemptOutcome := fun _ =>
  (TokenOutcome.tok "t", AttemptOutcome.resp 503 none none "down" none)

/-- Witness for C2: two 500s then a 200/ok envelope succeed with sleeps
2 s and 4 s and a reset counter; four 503s raise the generic API error. -/
theorem c2_5xx_retry_then_success_witness :
    ((async_request c2wit_script (fun _ => 0) ⟨[], 7⟩).result
        = Except.ok ⟨some "ok", none, none, "B"⟩ ∧
      (async_request c2wit_script (fun _ => 0) ⟨[], 7⟩).state.consecutive_failures = 0 ∧
      (async_request c2wit_script (fun _ => 0) ⟨[], 7⟩).sleeps
        = (List.range 2).map (fun i => min (INITIAL_BACKOFF * 2 ^ i) MAX_BACKOFF)) ∧
    (async_request c2wit_allbad (fun _ => 0) ⟨[], 0⟩).result
      = Except.error (NetErr.api ("Server error " ++ toString 503 ++ " after 3 retries: "
          ++ "down")) :=
  ⟨c2_5xx_retry_then_success.1 2 (by omega) c2wit_script (fun _ => 0) 7
      c2wit_s (fun _ => none) (fun _ => none) (fun _ => "boom") c2wit_pb (fun _ => "t")
      ⟨some "ok", none, none, "B"⟩
      (fun i _ => rfl) (fun i hi => by simp [c2wit_s, hi]) rfl (by decide) (by decide) rfl,
   c2_5xx_retry_then_success.2 c2wit_allbad (fun _ => 0) 0 (fun _ => 503)
      (fun _ => none) (fun _ => none) (fun _ => "down") (fun _ => none) (fun _ => "t")
      (fun i _ => rfl) (fun i _ => by norm_num)⟩

/-! ## Claim C4 — transient versus fatal vendor error codes -/

/-- C4: for sub-400 responses whose vendor envelope is not ok, a transient
error code is retried with exponential backoff up to the budget before the
API error is raised, while a code outside the transient set raises
immediately on the first attempt — no retry, no sleep, whatever the rest of
the script holds — with the vendor code and message surfaced. -/
theorem c4_vendor_error_codes :
    (∀ (script : Nat → TokenOutcome × AttemptOutcome) (clock : Nat → ℚ) (cf : Nat)
        (sv : Nat → Nat) (hU hL : Nat → Option String) (txt : Nat → String)
        (ps : Nat → ParsedJson) (tks : Nat → String) (c : Nat → String),
        (∀ i, i ≤ 3 → script i = (TokenOutcome.tok (tks i),
            AttemptOutcome.resp (sv i) (hU i) (hL i) (txt i) (some (ps i)))) →
        (∀ i, i ≤ 3 → sv i < 400) →
        (∀ i, i ≤ 3 → (ps i).status ≠ some "ok") →
        (∀ i, i ≤ 3 → (ps i).errorCode = some (c i)) →
        (∀ i, i ≤ 3 → TRANSIENT_ERROR_CODES.contains (c i) = true) →
        (async_request script clock ⟨[], cf⟩).result
          = Except.error (NetErr.api ("API returned error: " ++ c 3
              ++ " - " ++ (ps 3).errorMessage.getD "Unknown error")) ∧
        (async_request script clock ⟨[], cf⟩).sleeps
          = (List.range 3).map (fun i => min (INITIAL_BACKOFF * 2 ^ i) MAX_BACKOFF) ∧
        (async_request script clock ⟨[], cf⟩).state.consecutive_failures = cf + 1) ∧
    (∀ (script : Nat → TokenOutcome × AttemptOutcome) (clock : Nat → ℚ) (cf : Nat)
        (status : Nat) (hU hL : Option String) (txt : String)
        (p : ParsedJson) (tk : String) (c : String),
        script 0 = (TokenOutcome.tok tk, AttemptOutcome.resp status hU hL txt (some p)) →
        status < 400 → p.status ≠ some "ok" → p.errorCode = some c →
        TRANSIENT_ERROR_CODES.contains c = false →
        (async_request script clock ⟨[], cf⟩).result
          = Except.error (NetErr.api ("API returned error: " ++ c ++ " - "
              ++ p.errorMessage.getD "Unknown error")) ∧
        (async_request script clock ⟨[], cf⟩).sleeps = [] ∧
        (async_request script clock ⟨[], cf⟩).state.consecutive_failures = cf + 1) := by
  constructor
  · intro script clock cf sv hU hL txt ps tks c hsc h4 hnok hec htr
    have hcode : ∀ i, i ≤ 3 →
        TRANSIENT_ERROR_CODES.contains ((ps i).errorCode.getD "unknown") = true := by
      intro i hi
      rw [hec i hi]
      simpa using htr i hi
    have e1 := step_retry_vendor script clock MAX_RETRIES 0 0 none ⟨[], cf⟩ []
      (sv 0) (hU 0) (hL 0) (txt 0) (ps 0) (tks 0) (hsc 0 (by omega)) (h4 0 (by omega))
      (hnok 0 (by omega)) (hcode 0 (by omega)) (by decide)
      (len_lt_cap [] 0 (by simp) (by omega))
    have b1 := check_len_le [] (clock 0) (clock 1) 0 (by simp)
    have e2 := step_retry_vendor script clock 2 1 2 none
      ⟨(check_rate_limit [] (clock 0) (clock 1)).1, cf⟩ [backoff 0]
      (sv 1) (hU 1) (hL 1) (txt 1) (ps 1) (tks 1) (hsc 1 (by omega)) (h4 1 (by omega))
      (hnok 1 (by omega)) (hcode 1 (by omega)) (by decide)
      (len_lt_cap _ 1 b1 (by omega))
    have b2 := check_len_le _ (clock 2) (clock 3) 1 b1
    have e3 := step_retry_vendor script clock 1 2 4 none
      ⟨(check_rate_limit (check_rate_limit [] (clock 0) (clock 1)).1
          (clock 2) (clock 3)).1, cf⟩ [backoff 0, backoff 1]
      (sv 2) (hU 2) (hL 2) (txt 2) (ps 2) (tks 2) (hsc 2 (by omega)) (h4 2 (by omega))
      (hnok 2 (by omega)) (hcode 2 (by omega)) (by decide)
      (len_lt_cap _ 2 b2 (by omega))
    have b3 := check_len_le _ (clock 4) (clock 5) 2 b2
    have e4 := step_fatal_vendor script clock 0 3 6 none
      ⟨(check_rate_limit (check_rate_limit (check_rate_limit [] (clock 0) (clock 1)).1
          (clock 2) (clock 3)).1 (clock 4) (clock 5)).1, cf⟩
      [backoff 0, backoff 1, backoff 2]
      (sv 3) (hU 3) (hL 3) (txt 3) (ps 3) (tks 3) (hsc 3 (by omega)) (h4 3 (by omega))
      (hnok 3 (by omega)) (fun h => absurd h.2 (by decide))
      (len_lt_cap _ 3 b3 (by omega))
    have etot : async_request script clock ⟨[], cf⟩ = _ := e1.trans (e2.trans (e3.trans e4))
    refine ⟨?_, ?_, ?_⟩
    · rw [etot]
      simp [hec 3 (by omega)]
    · rw [etot]
      simp [List.range_succ, backoff]
    · rw [etot]
      rfl
  · intro script clock cf status hU hL txt p tk c hsc h4 hnok hec hfr
    have hno : ¬ (TRANSIENT_ERROR_CODES.contains (p.errorCode.getD "unknown") = true
        ∧ 0 < MAX_RETRIES) := by
      rw [hec]
      simp only [Option.getD_some, hfr]
      simp
    have e1 := step_fatal_vendor script clock MAX_RETRIES 0 0 none ⟨[], cf⟩ []
      status hU hL txt p tk hsc h4 hnok hno
      (len_lt_cap [] 0 (by simp) (by omega))
    have etot : async_request script clock ⟨[], cf⟩ = _ := e1
    refine ⟨?_, ?_, ?_⟩
    · rw [etot]
      simp [hec]
    · rw [etot]
    · rw [etot]
      rfl

/-- Transient-code script for the C4 witness: every attempt answers HTTP
200 with a non-ok envelope carrying vendor code 13. -/
def c4wit_transient : Nat → TokenOutcome × AttemptOutcome := fun _ =>
  (TokenOutcome.tok "t", AttemptOutcome.resp 200 none none "{}"
    (some ⟨some "error", some "13", some "unreachable", ""⟩))

/-- Fatal-code script for the C4 witness: vendor code 2 is outside the
transient set. -/
def c4wit_fatal : Nat → TokenOutcome × AttemptOutcome := fun _ =>
  (TokenOutcome.tok "t", AttemptOutcome.resp 200 none none "{}"
    (some ⟨some "error", some "2", some "bad request", ""⟩))

/-- Witness for C4: code 13 retries 3 times (sleeping 2 s, 4 s, 8 s) then
raises; code 2 raises at once with no sleeps. -/
theorem c4_vendor_error_codes_witness :
    ((async_request c4wit_transient (fun _ => 0) ⟨[], 4⟩).result
        = Except.error (NetErr.api ("API returned error: " ++ "13"
            ++ " - " ++ (some "unreachable").getD "Unknown error")) ∧
      (async_request c4wit_transient (fun _ => 0) ⟨[], 4⟩).sleeps
        = (List.range 3).map (fun i => min (INITIAL_BACKOFF * 2 ^ i) MAX_BACKOFF) ∧
      (async_request c4wit_transient (fun _ => 0) ⟨[], 4⟩).state.consecutive_failures
        = 4 + 1) ∧
    ((async_request c4wit_fatal (fun _ => 0) ⟨[], 0⟩).result
        = Except.error (NetErr.api ("API returned error: " ++ "2" ++ " - "
            ++ (some "bad request").getD "Unknown error")) ∧
      (async_request c4wit_fatal (fun _ => 0) ⟨[], 0⟩).sleeps = [] ∧
      (async_request c4wit_fatal (fun _ => 0) ⟨[], 0⟩).state.consecutive_failures
        = 0 + 1) :=
  ⟨c4_vendor_error_codes.1 c4wit_transient (fun _ => 0) 4 (fun _ => 200)
      (fun _ => none) (fun _ => none) (fun _ => "{}")
      (fun _ => ⟨some "error", some "13", some "unreachable", ""⟩) (fun _ => "t")
      (fun _ => "13")
      (fun i _ => rfl) (fun i _ => by norm_num) (fun i _ => by simp) (fun i _ => rfl)
      (fun i _ => rfl),
   c4_vendor_error_codes.2 c4wit_fatal (fun _ => 0) 0 200 none none "{}"
      ⟨some "error", some "2", some "bad request", ""⟩ "t" "2"
      rfl (by norm_num) (by simp) rfl (by decide)⟩

/-! ## Claim C5 — 429 with Retry-After -/

/-- C5: on HTTP 429 responses `async_request` honors the effective
`Retry-After` value via both header spellings, sleeps
`min(retry_after, MAX_BACKOFF)` — never more than the maximum backoff —
retries up to the attempt budget, and raises `NetatmoRateLimitError` when
the budget is exhausted. -/
theorem c5_rate_limit_retry_after :
    (∀ (script : Nat → TokenOutcome × AttemptOutcome) (clock : Nat → ℚ) (cf : Nat)
        (hU hL : Option String) (txt : Nat → String)
        (pb : Nat → Option ParsedJson) (tks : Nat → String) (ra : Int),
        (∀ i, i ≤ 3 → script i = (TokenOutcome.tok (tks i),
            AttemptOutcome.resp 429 hU hL (txt i) (pb i))) →
        pyInt (retryAfterLookup hU hL) = some ra →
        (async_request script clock ⟨[], cf⟩).result
          = Except.error (NetErr.rateLimit "Rate limited after 3 retries") ∧
        (async_request script clock ⟨[], cf⟩).sleeps
          = List.replicate 3 ((min ra 30 : ℤ) : ℚ) ∧
        (∀ w ∈ (async_request script clock ⟨[], cf⟩).sleeps, w ≤ MAX_BACKOFF) ∧
        (async_request script clock ⟨[], cf⟩).state.consecutive_failures = cf + 1) ∧
    (∀ s : String, s ≠ "" →
        retryAfterLookup (some s) none = s ∧ retryAfterLookup none (some s) = s) := by
  constructor
  · intro script clock cf hU hL txt pb tks ra hsc hra
    have e1 := step_retry_429 script clock MAX_RETRIES 0 0 none ⟨[], cf⟩ []
      hU hL (txt 0) (pb 0) (tks 0) ra (hsc 0 (by omega)) hra (by decide)
      (len_lt_cap [] 0 (by simp) (by omega))
    have b1 := check_len_le [] (clock 0) (clock 1) 0 (by simp)
    have e2 := step_retry_429 script clock 2 1 2 none
      ⟨(check_rate_limit [] (clock 0) (clock 1)).1, cf⟩ [((min ra 30 : ℤ) : ℚ)]
      hU hL (txt 1) (pb 1) (tks 1) ra (hsc 1 (by omega)) hra (by decide)
      (len_lt_cap _ 1 b1 (by omega))
    have b2 := check_len_le _ (clock 2) (clock 3) 1 b1
    have e3 := step_retry_429 script clock 1 2 4 none
      ⟨(check_rate_limit (check_rate_limit [] (clock 0) (clock 1)).1
          (clock 2) (clock 3)).1, cf⟩
      [((min ra 30 : ℤ) : ℚ), ((min ra 30 : ℤ) : ℚ)]
      hU hL (txt 2) (pb 2) (tks 2) ra (hsc 2 (by omega)) hra (by decide)
      (len_lt_cap _ 2 b2 (by omega))
    have b3 := check_len_le _ (clock 4) (clock 5) 2 b2
    have e4 := step_exhaust_429 script clock 0 3 6 none
      ⟨(check_rate_limit (check_rate_limit (check_rate_limit [] (clock 0) (clock 1)).1
          (clock 2) (clock 3)).1 (clock 4) (clock 5)).1, cf⟩
      [((min ra 30 : ℤ) : ℚ), ((min ra 30 : ℤ) : ℚ), ((min ra 30 : ℤ) : ℚ)]
      hU hL (txt 3) (pb 3) (tks 3) ra (hsc 3 (by omega)) hra (by decide)
      (len_lt_cap _ 3 b3 (by omega))
    have etot : async_request script clock ⟨[], cf⟩ = _ := e1.trans (e2.trans (e3.trans e4))
    refine ⟨by rw [etot], by rw [etot]; simp [List.replicate], ?_, by rw [etot]; rfl⟩
    rw [etot]
    intro w hw
    have hw30 : w = ((min ra 30 : ℤ) : ℚ) := by
      simpa using hw
    rw [hw30]
    have : (min ra 30 : ℤ) ≤ 30 := min_le_right _ _
    calc ((min ra 30 : ℤ) : ℚ) ≤ ((30 : ℤ) : ℚ) := by exact_mod_cast this
    _ = MAX_BACKOFF := by norm_num [MAX_BACKOFF]
  · intro s hs
    constructor <;> simp [retryAfterLookup, pyOrStr, hs]

/-- Script of 429 responses for the C5 witness, carrying the lowercase header spelling
`retry-after: 45`. -/
def c5wit_script : Nat → TokenOutcome × AttemptOutcome := fun _ =>
  (TokenOutcome.tok "t", AttemptOutcome.resp 429 none (some "45") "" none)

/-- Witness for C5: four 429s with `retry-after: 45` sleep
`min 45 30 = 30` three times and end in the rate-limit error; both header
spellings yield the same effective value. -/
theorem c5_rate_limit_retry_after_witness :
    ((async_request c5wit_script (fun _ => 0) ⟨[], 2⟩).result
        = Except.error (NetErr.rateLimit "Rate limited after 3 retries") ∧
      (async_request c5wit_script (fun _ => 0) ⟨[], 2⟩).sleeps
        = List.replicate 3 ((min (45 : ℤ) 30 : ℤ) : ℚ) ∧
      (∀ w ∈ (async_request c5wit_script (fun _ => 0) ⟨[], 2⟩).sleeps, w ≤ MAX_BACKOFF) ∧
      (async_request c5wit_script (fun _ => 0) ⟨[], 2⟩).state.consecutive_failures
        = 2 + 1) ∧
    (retryAfterLookup (some "45") none = "45" ∧ retryAfterLookup none (some "45") = "45") :=
  ⟨c5_rate_limit_retry_after.1 c5wit_script (fun _ => 0) 2 none (some "45")
      (fun _ => "") (fun _ => none) (fun _ => "t") 45 (fun i _ => rfl) rfl,
   c5_rate_limit_retry_after.2 "45" (by decide)⟩

/-! ## Claim C9 — failure-counter accounting of fatal outcomes -/

/-- Script exhibiting a fatal outcome of `async_request` that is neither
the token-fetch failure nor a typed Netatmo error: a 429 whose
`Retry-After` value is not an integer. -/
def c9cex_script : Nat → TokenOutcome × AttemptOutcome := fun _ =>
  (TokenOutcome.tok "t", AttemptOutcome.resp 429 (some "oops") none "" none)

/-- Counterexample to C9 as stated: the claim says every fatal outcome
other than the token-fetch failure increments `consecutive_failures`, but
the uncaught `ValueError` from a malformed `Retry-After` header is a fatal
outcome that is not the token-fetch failure and leaves the counter at 0. -/
theorem c9_counter_counterexample :
    (async_request c9cex_script (fun _ => 0) ⟨[], 0⟩).result
        = Except.error (NetErr.valueError "oops") ∧
    (NetErr.valueError "oops").isTokenAuth = false ∧
    (async_request c9cex_script (fun _ => 0) ⟨[], 0⟩).state.consecutive_failures = 0 := by
  refine ⟨?_, rfl, ?_⟩ <;> with_unfolding_all rfl

/-- C9 as amended: a token-fetch failure raises `NetatmoAuthError`
immediately on the first attempt without touching `consecutive_failures`
(so the counter can still read 0 after the failed call); every other fatal
outcome that raises one of the typed Netatmo errors increments the counter
before raising; the undocumented `ValueError` escape from a malformed
`Retry-After` value also leaves the counter untouched. -/
theorem c9_counter_accounting (script : Nat → TokenOutcome × AttemptOutcome)
    (clock : Nat → ℚ) (st : ClientState) (m : String) :
    ((script 0).1 = TokenOutcome.tokenFail m →
      (async_request script clock st).result
        = Except.error (NetErr.tokenAuth ("Failed to get access token: " ++ m)) ∧
      (async_request script clock st).state.consecutive_failures
        = st.consecutive_failures) ∧
    (∀ e, (async_request script clock st).result = Except.error e →
      e.isTokenAuth = false → e.isValueError = false →
      (async_request script clock st).state.consecutive_failures
        = st.consecutive_failures + 1) := by
  constructor
  · intro h0
    rcases hsc : script 0 with ⟨tf, o⟩
    rw [hsc] at h0
    simp only at h0
    subst h0
    constructor <;> simp [async_request, async_request_loop, hsc]
  · intro e he h1 h2
    have h := loop_cf script clock (MAX_RETRIES + 1) 0 0 none st []
    exact (h.1 e he).2 (by simp [h1, h2])

/-- Token-failure script for the C9 witness. -/
def c9wit_tokfail : Nat → TokenOutcome × AttemptOutcome := fun _ =>
  (TokenOutcome.tokenFail "nope", AttemptOutcome.timeoutErr)

/-- Script answering 401 for the C9 witness. -/
def c9wit_401 : Nat → TokenOutcome × AttemptOutcome := fun _ =>
  (TokenOutcome.tok "t", AttemptOutcome.resp 401 none none "x" none)

/-- Witness for the amended C9: a failed token fetch ends with the counter
still 0; a 401 (typed `NetatmoAuthError`) bumps the counter from 5 to 6. -/
theorem c9_counter_accounting_witness :
    (async_request c9wit_tokfail (fun _ => 0) ⟨[], 0⟩).result
        = Except.error (NetErr.tokenAuth ("Failed to get access token: " ++ "nope")) ∧
    (async_request c9wit_tokfail (fun _ => 0) ⟨[], 0⟩).state.consecutive_failures = 0 ∧
    (async_request c9wit_401 (fun _ => 0) ⟨[], 5⟩).state.consecutive_failures = 5 + 1 :=
  ⟨((c9_counter_accounting c9wit_tokfail (fun _ => 0) ⟨[], 0⟩ "nope").1 rfl).1,
   ((c9_counter_accounting c9wit_tokfail (fun _ => 0) ⟨[], 0⟩ "nope").1 rfl).2,
   (c9_counter_accounting c9wit_401 (fun _ => 0) ⟨[], 5⟩ "").2
      (NetErr.auth "Unauthorized - token may be invalid. Response: x")
      (by with_unfolding_all rfl) rfl rfl⟩

/-! ## Claim C10 — malformed Retry-After escapes the taxonomy -/

/-- Script of 429 responses whose `Retry-After` header is present but empty. -/
def c10cex_script : Nat → TokenOutcome × AttemptOutcome := fun _ =>
  (TokenOutcome.tok "t", AttemptOutcome.resp 429 (some "") none "" none)

/-- Counterexample to C10 as stated: an empty `Retry-After` value is not a
decimal integer string, yet no `ValueError` is raised — the empty string is
falsy in the Python `or` chain, so the default "60" is parsed instead and
the call ends in the typed rate-limit error after the retry budget. -/
theorem c10_valueerror_counterexample :
    (async_request c10cex_script (fun _ => 0) ⟨[], 0⟩).result
        = Except.error (NetErr.rateLimit "Rate limited after 3 retries") ∧
    (NetErr.rateLimit "Rate limited after 3 retries").isTypedNetatmoError = true := by
  refine ⟨?_, rfl⟩
  with_unfolding_all rfl

/-- C10 as amended: when the effective `Retry-After` value — after Python's
falsy `or` chain substitutes "60" for an absent or empty header — fails
integer parsing, `async_request` raises the uncaught `ValueError` from
`int()` instead of one of the typed Netatmo error classes, escaping the
documented taxonomy and leaving the failure counter untouched. -/
theorem c10_valueerror_escape (script : Nat → TokenOutcome × AttemptOutcome)
    (clock : Nat → ℚ) (st : ClientState) (hU hL : Option String)
    (txt : String) (pb : Option ParsedJson) (tk : String)
    (hsc : script 0 = (TokenOutcome.tok tk, AttemptOutcome.resp 429 hU hL txt pb))
    (hra : pyInt (retryAfterLookup hU hL) = none)
    (hlen : st.request_timestamps.length < RATE_LIMIT_MAX_REQUESTS) :
    (async_request script clock st).result
        = Except.error (NetErr.valueError (retryAfterLookup hU hL)) ∧
    (NetErr.valueError (retryAfterLookup hU hL)).isTypedNetatmoError = false ∧
    (async_request script clock st).state.consecutive_failures
        = st.consecutive_failures := by
  have e1 := step_valueerror_429 script clock MAX_RETRIES 0 0 none st []
    hU hL txt pb tk hsc hra hlen
  have etot : async_request script clock st = _ := e1
  exact ⟨by rw [etot], rfl, by rw [etot]⟩

/-- Script of 429 responses with `Retry-After: soon` for the C10 witness. -/
def c10wit_script : Nat → TokenOutcome × AttemptOutcome := fun _ =>
  (TokenOutcome.tok "t", AttemptOutcome.resp 429 (some "soon") none "" none)

/-- Witness for the amended C10 at the non-integer value "soon". -/
theorem c10_valueerror_escape_witness :
    (async_request c10wit_script (fun _ => 0) ⟨[], 3⟩).result
        = Except.error (NetErr.valueError (retryAfterLookup (some "soon") none)) ∧
    (NetErr.valueError (retryAfterLookup (some "soon") none)).isTypedNetatmoError
        = false ∧
    (async_request c10wit_script (fun _ => 0) ⟨[], 3⟩).state.consecutive_failures = 3 :=
  c10_valueerror_escape c10wit_script (fun _ => 0) ⟨[], 3⟩ (some "soon") none "" none "t"
    rfl rfl (by decide)

end Netatmo
